import Mathlib

/-!
Verification of the smart-dispatcher maintenance decision engine.

This file is a shallow embedding of the repository's core logic:
- `src/src/services/calendar_service.py` (`CalendarService`): the slot
  allocator, modelled as a pure function of its `busy_slots` list;
- `src/email_service.py` (`EmailDispatcher`): the audit-logged notifier;
- `src/src/mcp_server.py` (`internal_send_email`, `execute_maintenance`):
  the MCP server's notifier helper and the dispatch decision engine;
- `src/agent.py` (`get_vendor_contact`): contact lookup.

External transport (SMTP) is modelled by a two-outcome `Transport` value
(success or connection refused), matching the interface the code handles.
Dates are modelled as year/month/day triples compared through a numeric
key, which coincides with Python `date` ordering on calendar dates.
-/

namespace Dispatcher

/-- A calendar date (as produced by `datetime.strptime(s, "%Y-%m-%d").date()`). -/
structure Date where
  year : Nat
  month : Nat
  day : Nat
deriving Repr, DecidableEq

/-- Numeric key realising lexicographic (year, month, day) order for
calendar dates (month ≤ 12, day ≤ 31), i.e. Python `date` comparison. -/
def Date.key (d : Date) : Nat := d.year * 10000 + d.month * 100 + d.day

instance : LT Date := ⟨fun a b => a.key < b.key⟩
instance : LE Date := ⟨fun a b => a.key ≤ b.key⟩

instance : DecidableRel (fun a b : Date => a < b) :=
  fun a b => inferInstanceAs (Decidable (a.key < b.key))

instance : DecidableRel (fun a b : Date => a ≤ b) :=
  fun a b => inferInstanceAs (Decidable (a.key ≤ b.key))

/-! ## Slot Allocator — `src/src/services/calendar_service.py` -/

/-- `CalendarService.__init__`: the pre-seeded busy list. -/
def initBusy : List String := ["09:00", "14:00"]

/-- The fixed daily template (`all_slots` in `check_availability`). -/
def all_slots : List String := ["09:00", "10:00", "11:00", "13:00", "14:00", "15:00"]

set_option linter.unusedVariables false in
/-- `CalendarService.check_availability(date_str)`: filters the fixed daily
template by the busy list. The `date_str` argument is only printed by the
source and does not influence the result. -/
def check_availability (busy : List String) (date_str : String) : List String :=
  all_slots.filter (fun slot => slot ∉ busy)

/-- `CalendarService.book_slot(date_str, time_slot, task_description)`:
returns the message and the updated busy list. -/
def book_slot (busy : List String) (date_str time_slot task_description : String) :
    String × List String :=
  if time_slot ∈ busy then
    ("Error: Slot " ++ time_slot ++ " is already taken.", busy)
  else
    ("Scheduled: '" ++ task_description ++ "' on " ++ date_str ++ " at " ++ time_slot ++ ".",
      busy ++ [time_slot])

/-! ## Notifier & Audit Log -/

/-- Outcome of one attempt on the external SMTP transport: it either
accepts the message or refuses the connection. -/
inductive Transport where
  | ok : Transport
  | connRefused : Transport
deriving Repr, DecidableEq

/-- One row of the `email_logs` table. -/
structure LogRow where
  recipient_email : String
  subject : String
  body : String
  status : String
deriving Repr, DecidableEq

/-- `EmailDispatcher.log_email` (`src/email_service.py`): INSERT a row and
return `lastrowid`, modelled as the row's position. -/
def log_email (logs : List LogRow) (recipient subject body status : String) :
    Nat × List LogRow :=
  (logs.length, logs ++ [⟨recipient, subject, body, status⟩])

/-- `EmailDispatcher.update_status` (`src/email_service.py`): UPDATE the
status of the row whose id is `log_id`. -/
def update_status : List LogRow → Nat → String → List LogRow
  | [], _, _ => []
  | r :: rs, 0, new_status => { r with status := new_status } :: rs
  | r :: rs, n + 1, new_status => r :: update_status rs n new_status

/-- `EmailDispatcher.send_email` (`src/email_service.py`): log a DRAFT row,
attempt transmission, then update the row to SENT or FAILED. Returns the
user-facing message and the final log table. (The faker-generated
recipient for a missing argument is outside this model; the recipient is
supplied.) -/
def send_email (transport : Transport) (logs : List LogRow)
    (subject body recipient_email : String) : String × List LogRow :=
  let p := log_email logs recipient_email subject body "DRAFT"
  match transport with
  | .ok =>
      ("Email sent to " ++ recipient_email, update_status p.2 p.1 "SENT")
  | .connRefused =>
      ("Connection Refused: Is the mock server running?", update_status p.2 p.1 "FAILED")

/-- `internal_send_email` (`src/src/mcp_server.py`): send first, and only
on success INSERT a single row with status SENT; on failure return False
having written nothing. -/
def internal_send_email (transport : Transport) (logs : List LogRow)
    (recipient subject body : String) : Bool × List LogRow :=
  match transport with
  | .ok => (true, logs ++ [⟨recipient, subject, body, "SENT"⟩])
  | .connRefused => (false, logs)

/-! ## Contact lookup — `src/agent.py` -/

/-- One row of the `vendors` table. -/
structure Vendor where
  brand_affiliation : String
  contact_email : String
  is_internal_staff : Bool
deriving Repr, DecidableEq

/-- Result of `get_vendor_contact`. -/
structure ContactInfo where
  email : String
  name : String
deriving Repr, DecidableEq

/-- `get_vendor_contact(brand_name, is_expired)` (`src/agent.py`): when
expired, SELECT the internal-staff row; when active, SELECT by exact brand
match; `fetchone` is the first matching row; fall back to the internal
handyman when no row matches. -/
def get_vendor_contact (vendors : List Vendor) (brand_name : String)
    (is_expired : Bool) : ContactInfo :=
  let result :=
    if is_expired then
      vendors.find? (fun v => v.is_internal_staff)
    else
      vendors.find? (fun v => v.brand_affiliation = brand_name)
  match result with
  | some v => ⟨v.contact_email, v.brand_affiliation⟩
  | none => ⟨"maintenance@building.com", "Internal Handyman"⟩

/-! ## Dispatch Decision Engine — `src/src/mcp_server.py` `execute_maintenance` -/

/-- The row produced by the SQL join in `execute_maintenance`:
assets LEFT JOIN vendors ON brand LEFT JOIN tenants ON unit.
`warranty_expires` is `none` when `strptime` raises `ValueError`
(the code then substitutes today); `contact_email` is `none` when the
LEFT JOIN finds no vendor for the brand. -/
structure AssetRow where
  asset_name : String
  brand : String
  warranty_expires : Option Date
  unit_number : String
  contact_email : Option String
  tenant_name : Option String
deriving Repr, DecidableEq

/-- Which top-level policy the engine took. -/
inductive Branch where
  | claim : Branch
  | internalRepair : Branch
  | notFound : Branch
deriving Repr, DecidableEq

/-- A notification attempt handed to `internal_send_email`. -/
structure Email where
  recipient : String
  subject : String
  body : String
deriving Repr, DecidableEq

/-- Observable result of one `execute_maintenance` call: the returned
string, the branch taken, every notification attempt made, the slot the
code reported as booked (if the expired branch ran), the final
`busy_slots` of the `CalendarService` it constructed (`none` when the
allocator was never invoked), and the final `email_logs` table. -/
structure Outcome where
  reply : String
  branch : Branch
  dispatched : List Email
  bookedSlot : Option String
  calendarFinal : Option (List String)
  logs : List LogRow
deriving Repr, DecidableEq

/-- The expired-warranty arm of `execute_maintenance`
(`src/src/mcp_server.py` lines 188–210), as a function of the
`busy_slots` state of the `CalendarService` it operates on (the caller
constructs that service fresh, so passes `initBusy`). The code takes the
first available slot, falling back to the literal `"09:00"` when the
availability list is empty; the result of `book_slot` is discarded. The
`except` arm of the source is unreachable here because `book_slot`
signals a taken slot by its return value, not by raising. -/
def expiredBranch (transport : Transport) (logs : List LogRow)
    (busy : List String) (row : AssetRow) (serial_number : String) : Outcome :=
  let tenant_name := row.tenant_name.getD "Resident"
  let asset_desc := row.brand ++ " " ++ row.asset_name
  let available_slots := check_availability busy "tomorrow"
  let slot := available_slots.headD "09:00"
  let booking := book_slot busy "tomorrow" slot ("Fix " ++ asset_desc)
  let recipient := "maintenance@building.com"
  let subject := "Work Order: " ++ serial_number
  let body := "Tenant: " ++ tenant_name ++ "\nAsset: " ++ asset_desc ++
    "\nStatus: Expired\nAction: Booked for " ++ slot ++ "."
  let sent := internal_send_email transport logs recipient subject body
  { reply := "Your " ++ row.asset_name ++ " warranty is expired. I booked the " ++
      "handyman for " ++ slot ++ " tomorrow and emailed the maintenance team."
    branch := .internalRepair
    dispatched := [⟨recipient, subject, body⟩]
    bookedSlot := some slot
    calendarFinal := some booking.2
    logs := sent.2 }

/-- `execute_maintenance(serial_number)` (`src/src/mcp_server.py`
lines 129–210), with the database row, today's date, the transport
outcome and the current `email_logs` passed explicitly. A parse failure
of `warranty_expires` is the `none` case of `AssetRow.warranty_expires`
(the code substitutes today, making the warranty count as active). -/
def execute_maintenance (transport : Transport) (logs : List LogRow)
    (row? : Option AssetRow) (serial_number : String) (today : Date) : Outcome :=
  match row? with
  | none =>
      { reply := "System Error: Asset not found in database."
        branch := .notFound
        dispatched := []
        bookedSlot := none
        calendarFinal := none
        logs := logs }
  | some row =>
      let expires := row.warranty_expires.getD today
      let is_active := today ≤ expires
      let tenant_name := row.tenant_name.getD "Resident"
      let asset_desc := row.brand ++ " " ++ row.asset_name
      if is_active then
        let recipient := row.contact_email.getD "warranty@generic.com"
        let subject := "Warranty Claim: " ++ serial_number
        let body := "Tenant: " ++ tenant_name ++ "\nUnit: " ++ row.unit_number ++
          "\nAsset: " ++ asset_desc ++ "\nIssue: Reported by user."
        let sent := internal_send_email transport logs recipient subject body
        { reply := "I found your " ++ asset_desc ++ ". The warranty is active. I have " ++
            "notified the manufacturer and sent the confirmation email."
          branch := .claim
          dispatched := [⟨recipient, subject, body⟩]
          bookedSlot := none
          calendarFinal := none
          logs := sent.2 }
      else
        expiredBranch transport logs initBusy row serial_number

/-! ## Sample data (seed rows of `setup_database.py`) -/

/-- Seeded asset `SN-AC-402` joined with its vendor and tenant. -/
def rowAirConditioner : AssetRow :=
  ⟨"Air Conditioner", "Samsung", some ⟨2026, 12, 31⟩, "402",
    some "warranty@samsung.com", some "Alice"⟩

/-- Seeded asset `SN-WH-101` joined with its vendor and tenant. -/
def rowWaterHeater : AssetRow :=
  ⟨"Water Heater", "GenericCorp", some ⟨2022, 1, 1⟩, "101",
    some "support@generic.com", some "Bob"⟩

/-- An active-warranty asset of a brand with no row in `vendors`: the LEFT
JOIN leaves `contact_email` NULL. -/
def rowNoVendor : AssetRow :=
  ⟨"Refrigerator", "FrostKing", some ⟨2027, 5, 20⟩, "205", none, some "Charlie"⟩

/-- The same asset as `rowNoVendor` but with a brand-matching vendor row. -/
def rowNoVendorMatched : AssetRow :=
  { rowNoVendor with contact_email := some "support@frostking.com" }

/-- The seeded `vendors` table. -/
def vendorsSeed : List Vendor :=
  [⟨"Samsung", "warranty@samsung.com", false⟩,
   ⟨"GenericCorp", "support@generic.com", false⟩,
   ⟨"Internal Handyman", "maintenance@building.com", true⟩,
   ⟨"LG", "warranty@lg.com", false⟩,
   ⟨"Bosch", "service@bosch-home.com", false⟩,
   ⟨"Whirlpool", "help@whirlpool.com", false⟩]

/-- The current date used by the spec's scenarios. -/
def d20250101 : Date := ⟨2025, 1, 1⟩

/-! ## Helper lemmas -/

theorem Date.le_of_lt {a b : Date} (h : a < b) : a ≤ b := Nat.le_of_lt h

theorem Date.not_le_of_lt {a b : Date} (h : a < b) : ¬ b ≤ a :=
  fun hc => absurd h (Nat.not_lt.mpr hc)

/-- The head of a filtered list is the first element satisfying the
predicate. -/
theorem head?_filter_eq_find? (p : String → Bool) (l : List String) :
    (l.filter p).head? = l.find? p := by
  induction l with
  | nil => rfl
  | cons a as ih => by_cases h : p a <;> simp [List.filter_cons, h, ih, List.find?_cons]

/-- Updating the status of the freshly appended row rewrites exactly that
row. -/
theorem update_status_append (logs : List LogRow) (r : LogRow) (s : String) :
    update_status (logs ++ [r]) logs.length s = logs ++ [{ r with status := s }] := by
  induction logs with
  | nil => rfl
  | cons a as ih => simp [update_status, ih]

/-! ## Claims -/

/-- C1: for every asset whose warranty expiration date is strictly in the
future of the current date, `execute_maintenance` selects the
manufacturer-claim branch, dispatches exactly the claim notification, and
never invokes the slot allocator: no `CalendarService` is constructed
(`calendarFinal = none`) and no slot is booked, so every slot reservation
set is unchanged by the call. -/
theorem c1_active_claim_branch_no_allocator (transport : Transport)
    (logs : List LogRow) (row : AssetRow) (serial_number : String)
    (today e : Date) (he : row.warranty_expires = some e) (hfut : today < e) :
    (execute_maintenance transport logs (some row) serial_number today).branch =
      Branch.claim ∧
    (execute_maintenance transport logs (some row) serial_number today).calendarFinal =
      none ∧
    (execute_maintenance transport logs (some row) serial_number today).bookedSlot =
      none ∧
    (execute_maintenance transport logs (some row) serial_number today).dispatched =
      [⟨row.contact_email.getD "warranty@generic.com",
        "Warranty Claim: " ++ serial_number,
        "Tenant: " ++ row.tenant_name.getD "Resident" ++ "\nUnit: " ++ row.unit_number ++
          "\nAsset: " ++ (row.brand ++ " " ++ row.asset_name) ++
          "\nIssue: Reported by user."⟩] := by
  have hle : today ≤ e := Date.le_of_lt hfut
  simp [execute_maintenance, he, hle]

/-- Witness for C1 at the seeded Samsung air conditioner on 2025-01-01. -/
theorem c1_witness :
    rowAirConditioner.warranty_expires = some ⟨2026, 12, 31⟩ ∧
    d20250101 < (⟨2026, 12, 31⟩ : Date) ∧
    ((execute_maintenance Transport.ok [] (some rowAirConditioner) "SN-AC-402"
        d20250101).branch = Branch.claim ∧
      (execute_maintenance Transport.ok [] (some rowAirConditioner) "SN-AC-402"
        d20250101).calendarFinal = none ∧
      (execute_maintenance Transport.ok [] (some rowAirConditioner) "SN-AC-402"
        d20250101).bookedSlot = none ∧
      (execute_maintenance Transport.ok [] (some rowAirConditioner) "SN-AC-402"
        d20250101).dispatched =
        [⟨rowAirConditioner.contact_email.getD "warranty@generic.com",
          "Warranty Claim: " ++ "SN-AC-402",
          "Tenant: " ++ rowAirConditioner.tenant_name.getD "Resident" ++ "\nUnit: " ++
            rowAirConditioner.unit_number ++ "\nAsset: " ++
            (rowAirConditioner.brand ++ " " ++ rowAirConditioner.asset_name) ++
            "\nIssue: Reported by user."⟩]) :=
  ⟨rfl, by decide,
    c1_active_claim_branch_no_allocator Transport.ok [] rowAirConditioner "SN-AC-402"
      d20250101 ⟨2026, 12, 31⟩ rfl (by decide)⟩

/-- C2: for every asset whose warranty expiration date is in the past of
the current date, `execute_maintenance` selects the internal-repair branch
and addresses the dispatched notification to the internal contact address,
whatever vendor the brand join produced; likewise `get_vendor_contact`
with `is_expired = true` never consults the brand at all. -/
theorem c2_expired_internal_routing (transport : Transport) (logs : List LogRow)
    (row : AssetRow) (serial_number : String) (today e : Date)
    (vendors : List Vendor) (b1 b2 : String)
    (he : row.warranty_expires = some e) (hpast : e < today) :
    (execute_maintenance transport logs (some row) serial_number today).branch =
      Branch.internalRepair ∧
    (execute_maintenance transport logs (some row) serial_number today).dispatched.map
      Email.recipient = ["maintenance@building.com"] ∧
    get_vendor_contact vendors b1 true = get_vendor_contact vendors b2 true := by
  have hnle : ¬ (today ≤ e) := Date.not_le_of_lt hpast
  refine ⟨?_, ?_, rfl⟩ <;> simp [execute_maintenance, expiredBranch, he, hnle]

/-- Witness for C2 at the seeded expired GenericCorp water heater, whose
brand does have an exactly matching vendor row. -/
theorem c2_witness :
    rowWaterHeater.warranty_expires = some ⟨2022, 1, 1⟩ ∧
    (⟨2022, 1, 1⟩ : Date) < d20250101 ∧
    rowWaterHeater.contact_email = some "support@generic.com" ∧
    ((execute_maintenance Transport.ok [] (some rowWaterHeater) "SN-WH-101"
        d20250101).branch = Branch.internalRepair ∧
      (execute_maintenance Transport.ok [] (some rowWaterHeater) "SN-WH-101"
        d20250101).dispatched.map Email.recipient = ["maintenance@building.com"] ∧
      get_vendor_contact vendorsSeed "GenericCorp" true =
        get_vendor_contact vendorsSeed "Samsung" true) :=
  ⟨rfl, by decide, rfl,
    c2_expired_internal_routing Transport.ok [] rowWaterHeater "SN-WH-101" d20250101
      ⟨2022, 1, 1⟩ vendorsSeed "GenericCorp" "Samsung" rfl (by decide)⟩

/-- C3 counterexample: with every slot of the daily template reserved
(`busy = all_slots`, so availability is empty), the expired branch does
not yield a distinct no-availability outcome: it reports the fabricated
slot `09:00` — in the outcome, in the reply, and in a dispatched work
order — even though the booking attempt failed and the reservation set is
unchanged (`09:00` was never actually booked for this request). -/
theorem c3_counterexample_fabricated_slot :
    check_availability all_slots "tomorrow" = [] ∧
    (expiredBranch Transport.ok [] all_slots rowWaterHeater "SN-WH-101").bookedSlot =
      some "09:00" ∧
    (expiredBranch Transport.ok [] all_slots rowWaterHeater "SN-WH-101").calendarFinal =
      some all_slots ∧
    (expiredBranch Transport.ok [] all_slots rowWaterHeater "SN-WH-101").reply =
      "Your Water Heater warranty is expired. I booked the handyman for 09:00 " ++
        "tomorrow and emailed the maintenance team." ∧
    (expiredBranch Transport.ok [] all_slots rowWaterHeater "SN-WH-101").dispatched =
      [⟨"maintenance@building.com", "Work Order: SN-WH-101",
        "Tenant: Bob\nAsset: GenericCorp Water Heater\nStatus: Expired\n" ++
          "Action: Booked for 09:00."⟩] := by
  refine ⟨rfl, rfl, rfl, ?_, ?_⟩ <;> decide

/-- C3 amended: when every slot of the daily template is already reserved
(availability is empty), the expired branch produces no distinct
no-availability outcome. It falls back to the literal slot `"09:00"`, the
booking attempt fails leaving the reservation set unchanged, and it still
dispatches a work-order notification and a reply reporting `09:00` as the
booked time. -/
theorem c3_amended_fallback_slot (transport : Transport) (logs : List LogRow)
    (busy : List String) (row : AssetRow) (serial_number : String)
    (h : check_availability busy "tomorrow" = []) :
    (expiredBranch transport logs busy row serial_number).bookedSlot = some "09:00" ∧
    (expiredBranch transport logs busy row serial_number).calendarFinal = some busy ∧
    (expiredBranch transport logs busy row serial_number).dispatched =
      [⟨"maintenance@building.com", "Work Order: " ++ serial_number,
        "Tenant: " ++ row.tenant_name.getD "Resident" ++ "\nAsset: " ++
          (row.brand ++ " " ++ row.asset_name) ++
          "\nStatus: Expired\nAction: Booked for " ++ "09:00" ++ "."⟩] ∧
    (expiredBranch transport logs busy row serial_number).reply =
      "Your " ++ row.asset_name ++ " warranty is expired. I booked the " ++
        "handyman for " ++ "09:00" ++ " tomorrow and emailed the maintenance team." := by
  have h09 : "09:00" ∈ busy := by
    have hall := List.filter_eq_nil_iff.mp
      (show all_slots.filter (fun s => s ∉ busy) = [] from h)
    simpa using hall "09:00" (by decide)
  simp [expiredBranch, h, book_slot, h09]

/-- Witness for the amended C3 at the fully reserved template. -/
theorem c3_witness :
    check_availability all_slots "tomorrow" = [] ∧
    ((expiredBranch Transport.connRefused [] all_slots rowNoVendor "SN-REF-205").bookedSlot =
        some "09:00" ∧
      (expiredBranch Transport.connRefused [] all_slots rowNoVendor
        "SN-REF-205").calendarFinal = some all_slots ∧
      (expiredBranch Transport.connRefused [] all_slots rowNoVendor
        "SN-REF-205").dispatched =
        [⟨"maintenance@building.com", "Work Order: " ++ "SN-REF-205",
          "Tenant: " ++ rowNoVendor.tenant_name.getD "Resident" ++ "\nAsset: " ++
            (rowNoVendor.brand ++ " " ++ rowNoVendor.asset_name) ++
            "\nStatus: Expired\nAction: Booked for " ++ "09:00" ++ "."⟩] ∧
      (expiredBranch Transport.connRefused [] all_slots rowNoVendor "SN-REF-205").reply =
        "Your " ++ rowNoVendor.asset_name ++ " warranty is expired. I booked the " ++
          "handyman for " ++ "09:00" ++ " tomorrow and emailed the maintenance team.") :=
  ⟨rfl, c3_amended_fallback_slot Transport.connRefused [] all_slots rowNoVendor
    "SN-REF-205" rfl⟩

/-- C4 counterexample: `internal_send_email` in the MCP server never
creates a DRAFT record, and on a transport failure it returns `False`
having written no record at all — the log is left empty rather than
holding a FAILED row. On success it writes the single record directly
with status SENT. -/
theorem c4_counterexample_no_failed_record :
    internal_send_email Transport.connRefused []
      "warranty@samsung.com" "Warranty Claim: SN-AC-402" "body" = (false, []) ∧
    (internal_send_email Transport.ok []
      "warranty@samsung.com" "Warranty Claim: SN-AC-402" "body").2 =
      [⟨"warranty@samsung.com", "Warranty Claim: SN-AC-402", "body", "SENT"⟩] := by
  exact ⟨rfl, rfl⟩

/-- C4 amended: `EmailDispatcher.send_email` creates exactly one Dispatch
Record per call — first a DRAFT row, whose status is then updated exactly
once to SENT on transport success or FAILED on connection refusal — so the
final table is the old table plus that single finalised row and the call
never leaves it at DRAFT. The MCP server's `internal_send_email`, by
contrast, writes no record at all when the transport fails. -/
theorem c4_amended_notifier_lifecycle (transport : Transport) (logs : List LogRow)
    (subject body recipient : String) :
    (send_email transport logs subject body recipient).2 =
      logs ++ [⟨recipient, subject, body,
        if transport = Transport.ok then "SENT" else "FAILED"⟩] ∧
    internal_send_email Transport.connRefused logs recipient subject body =
      (false, logs) := by
  refine ⟨?_, rfl⟩
  cases transport with
  | ok =>
      simpa [send_email, log_email] using
        update_status_append logs ⟨recipient, subject, body, "DRAFT"⟩ "SENT"
  | connRefused =>
      simpa [send_email, log_email] using
        update_status_append logs ⟨recipient, subject, body, "DRAFT"⟩ "FAILED"

/-- C5: booking the same time twice always fails the second time with the
slot-taken error and leaves the reservation set unchanged; starting from
any state holding at most one reservation for `t` (every state reachable
from the seeded allocator does), the working set afterwards holds exactly
one reservation for `t`. -/
theorem c5_double_reserve_slot_taken (busy : List String)
    (t d1 d2 task1 task2 : String) (h : busy.count t ≤ 1) :
    (book_slot (book_slot busy d1 t task1).2 d2 t task2).1 =
      "Error: Slot " ++ t ++ " is already taken." ∧
    (book_slot (book_slot busy d1 t task1).2 d2 t task2).2 =
      (book_slot busy d1 t task1).2 ∧
    (book_slot busy d1 t task1).2.count t = 1 := by
  by_cases hm : t ∈ busy
  · have h1 : 0 < busy.count t := List.count_pos_iff.mpr hm
    have hc : busy.count t = 1 := Nat.le_antisymm h h1
    simp [book_slot, hm, hc]
  · have hc0 : busy.count t = 0 := List.count_eq_zero.mpr hm
    have hmem : t ∈ busy ++ [t] := by simp
    simp [book_slot, hm, hmem, List.count_append, hc0]

/-- Witness for C5 on the freshly seeded allocator at `t = "10:00"`. -/
theorem c5_witness :
    initBusy.count "10:00" ≤ 1 ∧
    ((book_slot (book_slot initBusy "tomorrow" "10:00" "Fix A").2 "tomorrow" "10:00"
        "Fix B").1 = "Error: Slot " ++ "10:00" ++ " is already taken." ∧
      (book_slot (book_slot initBusy "tomorrow" "10:00" "Fix A").2 "tomorrow" "10:00"
        "Fix B").2 = (book_slot initBusy "tomorrow" "10:00" "Fix A").2 ∧
      (book_slot initBusy "tomorrow" "10:00" "Fix A").2.count "10:00" = 1) :=
  ⟨by decide, c5_double_reserve_slot_taken initBusy "10:00" "tomorrow" "tomorrow"
    "Fix A" "Fix B" (by decide)⟩

/-- C6: whenever availability is non-empty, the expired branch books the
first template slot not in the busy set — the earliest available time in
the template's natural order — and in particular the spec's scenario
(expired `SN-WH-101`, template with `09:00` and `14:00` pre-reserved, as
seeded by `CalendarService.__init__`) books `10:00`. -/
theorem c6_earliest_free_slot (transport : Transport) (logs : List LogRow)
    (row : AssetRow) (serial_number : String) (busy : List String)
    (h : check_availability busy "tomorrow" ≠ []) :
    (expiredBranch transport logs busy row serial_number).bookedSlot =
      all_slots.find? (fun s => s ∉ busy) ∧
    (execute_maintenance Transport.ok [] (some rowWaterHeater) "SN-WH-101"
      d20250101).bookedSlot = some "10:00" := by
  constructor
  · have hav' : all_slots.filter (fun s => s ∉ busy) =
        check_availability busy "tomorrow" := rfl
    cases hav : check_availability busy "tomorrow" with
    | nil => exact absurd hav h
    | cons a rest =>
        have hfind : all_slots.find? (fun s => s ∉ busy) = some a := by
          rw [← head?_filter_eq_find?, hav', hav]; rfl
        simp only [decide_not] at hfind
        simp [expiredBranch, hav, hfind]
  · decide

/-- Witness for C6 on the freshly seeded allocator: the earliest free slot
is booked, and the scenario result is `10:00`. -/
theorem c6_witness :
    check_availability initBusy "tomorrow" ≠ [] ∧
    ((expiredBranch Transport.ok [] initBusy rowWaterHeater "SN-WH-101").bookedSlot =
        all_slots.find? (fun s => s ∉ initBusy) ∧
      (execute_maintenance Transport.ok [] (some rowWaterHeater) "SN-WH-101"
        d20250101).bookedSlot = some "10:00") :=
  ⟨by decide, c6_earliest_free_slot Transport.ok [] rowWaterHeater "SN-WH-101"
    initBusy (by decide)⟩

/-- C7 counterexample: for an active-warranty asset whose brand has no
vendor row, `execute_maintenance` routes the claim notification to the
hardcoded address `warranty@generic.com`, which is not the internal
contact `maintenance@building.com`, and the returned summary is exactly
the one produced when a brand-matching vendor exists — the degradation is
silent for the caller. -/
theorem c7_counterexample_silent_generic_fallback :
    (execute_maintenance Transport.ok [] (some rowNoVendor) "SN-REF-205"
      d20250101).dispatched.map Email.recipient = ["warranty@generic.com"] ∧
    "warranty@generic.com" ≠ "maintenance@building.com" ∧
    (execute_maintenance Transport.ok [] (some rowNoVendor) "SN-REF-205"
      d20250101).reply =
      (execute_maintenance Transport.ok [] (some rowNoVendorMatched) "SN-REF-205"
        d20250101).reply := by
  refine ⟨?_, ?_, ?_⟩ <;> decide

/-- C7 amended: for an active-warranty asset whose brand has no matching
vendor row, `execute_maintenance` routes the claim notification to the
fixed fallback address `warranty@generic.com` — not to the internal
contact — and the degradation is not observable by the caller: the reply
is identical to the one returned when a brand-matching contact exists.
`get_vendor_contact` in `agent.py` is the variant that falls back to the
internal handyman address when no vendor matches the brand. -/
theorem c7_amended_generic_fallback (transport : Transport) (logs : List LogRow)
    (row : AssetRow) (serial_number : String) (today e : Date) (c : String)
    (vendors : List Vendor)
    (he : row.warranty_expires = some e) (hfut : today < e)
    (hnone : row.contact_email = none)
    (hv : ∀ v ∈ vendors, v.brand_affiliation ≠ row.brand) :
    (execute_maintenance transport logs (some row) serial_number today).dispatched.map
      Email.recipient = ["warranty@generic.com"] ∧
    (execute_maintenance transport logs
        (some { row with contact_email := some c }) serial_number today).reply =
      (execute_maintenance transport logs (some row) serial_number today).reply ∧
    get_vendor_contact vendors row.brand false =
      ⟨"maintenance@building.com", "Internal Handyman"⟩ := by
  have hle : today ≤ e := Date.le_of_lt hfut
  refine ⟨?_, ?_, ?_⟩
  · simp [execute_maintenance, he, hle, hnone]
  · simp [execute_maintenance, he, hle]
  · have hfind : vendors.find? (fun v => v.brand_affiliation = row.brand) = none := by
      apply List.find?_eq_none.mpr
      intro v hvmem
      simpa using hv v hvmem
    simp [get_vendor_contact, hfind]

/-- Witness for the amended C7 at the vendor-less refrigerator row. -/
theorem c7_witness :
    rowNoVendor.warranty_expires = some ⟨2027, 5, 20⟩ ∧
    d20250101 < (⟨2027, 5, 20⟩ : Date) ∧
    rowNoVendor.contact_email = none ∧
    (∀ v ∈ vendorsSeed, v.brand_affiliation ≠ rowNoVendor.brand) ∧
    ((execute_maintenance Transport.ok [] (some rowNoVendor) "SN-REF-205"
        d20250101).dispatched.map Email.recipient = ["warranty@generic.com"] ∧
      (execute_maintenance Transport.ok []
          (some { rowNoVendor with contact_email := some "support@frostking.com" })
          "SN-REF-205" d20250101).reply =
        (execute_maintenance Transport.ok [] (some rowNoVendor) "SN-REF-205"
          d20250101).reply ∧
      get_vendor_contact vendorsSeed rowNoVendor.brand false =
        ⟨"maintenance@building.com", "Internal Handyman"⟩) :=
  ⟨rfl, by decide, rfl, by decide,
    c7_amended_generic_fallback Transport.ok [] rowNoVendor "SN-REF-205" d20250101
      ⟨2027, 5, 20⟩ "support@frostking.com" vendorsSeed rfl (by decide) rfl (by decide)⟩

/-- C9: the availability query ignores its date argument — for any two
date strings and a fixed busy set it returns the same list, namely the
six-entry template in template order with the busy times removed. -/
theorem c9_availability_ignores_date (busy : List String) (d1 d2 : String) :
    check_availability busy d1 = check_availability busy d2 ∧
    check_availability busy d1 = all_slots.filter (fun s => s ∉ busy) :=
  ⟨rfl, rfl⟩

/-- C10: `book_slot` validates the requested time only against the busy
set, not against the daily template: any time string not currently busy —
here one outside the six-entry template — is accepted and appended to the
busy set; yet availability output is always a subset of the template, so
such out-of-template reservations never appear in it. -/
theorem c10_reserve_no_template_validation (busy busy2 : List String)
    (t d task d2 d3 : String) (h : t ∉ busy) (hout : t ∉ all_slots) :
    book_slot busy d t task =
      ("Scheduled: '" ++ task ++ "' on " ++ d ++ " at " ++ t ++ ".", busy ++ [t]) ∧
    check_availability busy2 d2 ⊆ all_slots ∧
    t ∉ check_availability (busy ++ [t]) d3 := by
  refine ⟨?_, ?_, ?_⟩
  · simp [book_slot, h]
  · intro s hs
    simp only [check_availability] at hs
    exact (List.mem_filter.mp hs).1
  · intro hmem
    simp only [check_availability] at hmem
    exact hout (List.mem_filter.mp hmem).1

/-- Witness for C10 at the out-of-template time `23:59` on the seeded
allocator. -/
theorem c10_witness :
    "23:59" ∉ initBusy ∧
    "23:59" ∉ all_slots ∧
    (book_slot initBusy "tomorrow" "23:59" "Fix it" =
      ("Scheduled: '" ++ "Fix it" ++ "' on " ++ "tomorrow" ++ " at " ++ "23:59" ++ ".",
        initBusy ++ ["23:59"]) ∧
      check_availability ["10:00"] "tomorrow" ⊆ all_slots ∧
      "23:59" ∉ check_availability (initBusy ++ ["23:59"]) "tomorrow") :=
  ⟨by decide, by decide,
    c10_reserve_no_template_validation initBusy ["10:00"] "23:59" "tomorrow" "Fix it"
      "tomorrow" "tomorrow" (by decide) (by decide)⟩

end Dispatcher
